import Mathlib

/-!
Verification of the AINux-Proto command-safety classifier and executor
(`src/ainux_llm.py`, `AiNuxLLM.is_command_safe` and `AiNuxLLM.execute_command`).

The embedding models Python strings as Lean `String`/`List Char` with the
ASCII fragment of Python's `str.lower`, `str.upper` and `str.strip`
(all command strings and tokens involved are ASCII).  Python's `re.search`
is modelled by a derivative-based matcher `search` over a regex AST covering
exactly the constructs used by the source patterns: literal characters,
character classes (`\s`, `.`, `[0-7]`, `[06]`), `+`, `*`, grouping,
alternation `|`, and the end anchor `$` (which in Python matches at the end
of the string or just before a trailing newline).
-/

/-- ASCII whitespace, as recognised by Python's `str.strip` and `\s`:
space, tab, newline, carriage return, vertical tab, form feed. -/
def isSpace (c : Char) : Bool :=
  c = ' ' || c = '\t' || c = '\n' || c = '\r' || c = '\x0b' || c = '\x0c'

/-- ASCII fragment of Python's `str.lower`, character by character. -/
def pyLower (c : Char) : Char :=
  match c with
  | 'A' => 'a' | 'B' => 'b' | 'C' => 'c' | 'D' => 'd' | 'E' => 'e'
  | 'F' => 'f' | 'G' => 'g' | 'H' => 'h' | 'I' => 'i' | 'J' => 'j'
  | 'K' => 'k' | 'L' => 'l' | 'M' => 'm' | 'N' => 'n' | 'O' => 'o'
  | 'P' => 'p' | 'Q' => 'q' | 'R' => 'r' | 'S' => 's' | 'T' => 't'
  | 'U' => 'u' | 'V' => 'v' | 'W' => 'w' | 'X' => 'x' | 'Y' => 'y'
  | 'Z' => 'z'
  | c => c

/-- ASCII fragment of Python's `str.upper`, character by character. -/
def pyUpper (c : Char) : Char :=
  match c with
  | 'a' => 'A' | 'b' => 'B' | 'c' => 'C' | 'd' => 'D' | 'e' => 'E'
  | 'f' => 'F' | 'g' => 'G' | 'h' => 'H' | 'i' => 'I' | 'j' => 'J'
  | 'k' => 'K' | 'l' => 'L' | 'm' => 'M' | 'n' => 'N' | 'o' => 'O'
  | 'p' => 'P' | 'q' => 'Q' | 'r' => 'R' | 's' => 'S' | 't' => 'T'
  | 'u' => 'U' | 'v' => 'V' | 'w' => 'W' | 'x' => 'X' | 'y' => 'Y'
  | 'z' => 'Z'
  | c => c

/-- Python's `str.strip()` on a character list: drop leading and trailing
whitespace. -/
def pyStrip (l : List Char) : List Char :=
  ((l.dropWhile isSpace).reverse.dropWhile isSpace).reverse

/-- String versions of the Python primitives. -/
def pyLowerStr (s : String) : String := ⟨s.data.map pyLower⟩

def pyUpperStr (s : String) : String := ⟨s.data.map pyUpper⟩

def pyStripStr (s : String) : String := ⟨pyStrip s.data⟩

/-! ## A regex AST and a `re.search`-style matcher -/

/-- Regex AST covering the constructs used by the safety patterns. -/
inductive Regex where
  /-- matches nothing -/
  | emp : Regex
  /-- matches the empty string -/
  | eps : Regex
  /-- single character from a class -/
  | cls (p : Char → Bool) : Regex
  /-- the `$` anchor: end of string, or just before a trailing newline -/
  | eos : Regex
  | cat (a b : Regex) : Regex
  | alt (a b : Regex) : Regex
  | star (a : Regex) : Regex

namespace Regex

/-- Smart concatenation (keeps derivatives small). -/
def rcat : Regex → Regex → Regex
  | .emp, _ => .emp
  | _, .emp => .emp
  | .eps, b => b
  | a, .eps => a
  | a, b => .cat a b

/-- Smart alternation (keeps derivatives small). -/
def ralt : Regex → Regex → Regex
  | .emp, b => b
  | a, .emp => a
  | a, b => .alt a b

/-- Can `r` match the empty string at a position whose remaining input is
`rest`?  (`eos` succeeds exactly when the rest is empty or a single trailing
newline, as Python's `$` does without `re.MULTILINE`.) -/
def nullableAt : Regex → List Char → Bool
  | .emp, _ => false
  | .eps, _ => true
  | .cls _, _ => false
  | .eos, rest => rest.isEmpty || rest == ['\n']
  | .cat a b, rest => nullableAt a rest && nullableAt b rest
  | .alt a b, rest => nullableAt a rest || nullableAt b rest
  | .star _, _ => true

/-- Brzozowski derivative of `r` by the character `c`; `rest` is the whole
remaining input at the current position (so `rest` starts with `c`), needed
to resolve the position-dependent `eos`. -/
def deriv : Regex → Char → List Char → Regex
  | .emp, _, _ => .emp
  | .eps, _, _ => .emp
  | .cls p, c, _ => if p c then .eps else .emp
  | .eos, _, _ => .emp
  | .cat a b, c, rest =>
      ralt (rcat (deriv a c rest) b)
           (if nullableAt a rest then deriv b c rest else .emp)
  | .alt a b, c, rest => ralt (deriv a c rest) (deriv b c rest)
  | .star a, c, rest => rcat (deriv a c rest) (.star a)

/-- Does `r` match some prefix of `t` (anchors resolved against the true end
of input)? -/
def matchHere (r : Regex) : List Char → Bool
  | [] => nullableAt r []
  | c :: t => nullableAt r (c :: t) || matchHere (deriv r c (c :: t)) t

/-- Python `re.search`: does `r` match somewhere inside `s`? -/
def search (r : Regex) : List Char → Bool
  | [] => matchHere r []
  | c :: t => matchHere r (c :: t) || search r t

/-- A literal string, concatenated character by character. -/
def lit (s : String) : Regex :=
  s.data.foldr (fun c r => .cat (.cls (fun d => d == c)) r) .eps

/-- `\s` -/
def ws : Regex := .cls isSpace

/-- `\s+` -/
def wsPlus : Regex := .cat ws (.star ws)

/-- `.` (any character except newline) -/
def dot : Regex := .cls (fun c => c != '\n')

/-- `.+` -/
def dotPlus : Regex := .cat dot (.star dot)

/-- `X*` -/
def starOf (r : Regex) : Regex := .star r

end Regex

/-! ## The safety classifier (`AiNuxLLM.is_command_safe`) -/

open Regex in
/-- The `forbidden_patterns` list of `is_command_safe`, in source order:
`rm\s+-rf\s+/`, `format(\s|$)`, `fdisk`, `dd\s+if=`,
`:\(\)\s*\{\s*:|:&\}\s*;\s*:` (fork bomb), `shutdown(\s|$)`,
`reboot(\s|$)`, `poweroff(\s|$)`, `init\s+[06]`. -/
def forbidden_patterns : List Regex :=
  [ .cat (lit "rm") (.cat wsPlus (.cat (lit "-rf") (.cat wsPlus (lit "/")))),
    .cat (lit "format") (.alt ws .eos),
    lit "fdisk",
    .cat (lit "dd") (.cat wsPlus (lit "if=")),
    .alt (.cat (lit ":()") (.cat (starOf ws) (.cat (lit "\x7b") (.cat (starOf ws) (lit ":")))))
         (.cat (lit ":&\x7d") (.cat (starOf ws) (.cat (lit ";") (.cat (starOf ws) (lit ":"))))),
    .cat (lit "shutdown") (.alt ws .eos),
    .cat (lit "reboot") (.alt ws .eos),
    .cat (lit "poweroff") (.alt ws .eos),
    .cat (lit "init") (.cat wsPlus (.cls (fun c => c == '0' || c == '6'))) ]

open Regex in
/-- The `confirmable_patterns` list of `is_command_safe`, in source order:
`rm\s+-rf\s+.+`, `rm\s+.+`, `del\s+.+`, `rmdir\s+/s\s+/q\s+.+`,
`rmdir\s+.+`, `mv\s+.+`, `chmod\s+7[0-7][0-7]`, `chown\s+-r\s+.+`. -/
def confirmable_patterns : List Regex :=
  [ .cat (lit "rm") (.cat wsPlus (.cat (lit "-rf") (.cat wsPlus dotPlus))),
    .cat (lit "rm") (.cat wsPlus dotPlus),
    .cat (lit "del") (.cat wsPlus dotPlus),
    .cat (lit "rmdir") (.cat wsPlus (.cat (lit "/s") (.cat wsPlus (.cat (lit "/q") (.cat wsPlus dotPlus))))),
    .cat (lit "rmdir") (.cat wsPlus dotPlus),
    .cat (lit "mv") (.cat wsPlus dotPlus),
    .cat (lit "chmod") (.cat wsPlus (.cat (lit "7")
      (.cat (.cls (fun c => '0' ≤ c && c ≤ '7')) (.cls (fun c => '0' ≤ c && c ≤ '7'))))),
    .cat (lit "chown") (.cat wsPlus (.cat (lit "-r") (.cat wsPlus dotPlus))) ]

/-- The three-way verdict of `is_command_safe`.  The Python function returns
`True` (safe), the string `"confirm"` (confirmable) or `False` (forbidden);
we embed that `Union[bool, str]` as an enumeration. -/
inductive Safety where
  | safe : Safety
  | confirm : Safety
  | forbidden : Safety
deriving DecidableEq, Repr

/-- `command_lower = command.lower().strip()` (the normalisation step of
`is_command_safe`). -/
def commandLower (command : String) : List Char :=
  pyStrip (command.data.map pyLower)

/-- Does some pattern of the tier `ps` match (via `re.search`) the
normalised command `l`?  This is one `for`/`re.search` loop of
`is_command_safe`; the Python code returns on the first matching pattern,
and since every pattern in a tier yields the same verdict the loop is
`List.any` over the tier. -/
def matchesAnyRegex (ps : List Regex) (l : List Char) : Bool :=
  ps.any (fun p => Regex.search p l)

/-- The pattern-matching core of `is_command_safe`, applied to the already
normalised command. -/
def classifyNorm (l : List Char) : Safety :=
  if matchesAnyRegex forbidden_patterns l then .forbidden
  else if matchesAnyRegex confirmable_patterns l then .confirm
  else .safe

/-- `AiNuxLLM.is_command_safe`: normalise, then test the Forbidden tier,
then the Confirm tier, else safe. -/
def is_command_safe (command : String) : Safety :=
  classifyNorm (commandLower command)

/-! ## The executor (`AiNuxLLM.execute_command`)

`subprocess.run` is modelled by an oracle `run : String → ProcOutcome`
supplied by the environment; the `input()` read inside the Confirm branch is
modelled by the `confirmResponse` parameter.  Besides the result dictionary,
the model returns the command string actually handed to the shell
(`none` when no process is spawned). -/

/-- Outcome of a completed `subprocess.run`: exit code and raw streams. -/
structure ProcResult where
  returncode : Int
  stdout : String
  stderr : String
deriving DecidableEq, Repr

/-- The three ways the `try` block around `subprocess.run` can end:
normal completion, `subprocess.TimeoutExpired`, or any other exception. -/
inductive ProcOutcome where
  | completed (r : ProcResult) : ProcOutcome
  | timedOut : ProcOutcome
  | failed (msg : String) : ProcOutcome
deriving DecidableEq, Repr

/-- The result dictionary built by `execute_command` (`return_code` is
present only in the normal-completion branch). -/
structure ExecutionResult where
  success : Bool
  output : String
  error : String
  command : String
  return_code : Option Int := none
deriving DecidableEq, Repr

/-- `AiNuxLLM.execute_command`.  Returns the result dictionary together with
the command string passed to `subprocess.run` (`none` if no process was
spawned). -/
def execute_command (command : String) (confirmResponse : String)
    (run : String → ProcOutcome) : ExecutionResult × Option String :=
  if is_command_safe command = .forbidden then
    ({ success := false, output := "",
       error := "Command blocked for security reasons: " ++ command,
       command := command }, none)
  else if is_command_safe command = .confirm ∧ pyUpperStr (pyStripStr confirmResponse) ≠ "YES" then
    ({ success := false, output := "",
       error := "Execution cancelled by user: " ++ command,
       command := command }, none)
  else
    match run command with
    | .completed r =>
        ({ success := r.returncode == 0,
           output := if r.stdout = "" then "" else pyStripStr r.stdout,
           error := if r.stderr = "" then "" else pyStripStr r.stderr,
           command := command,
           return_code := some r.returncode }, some command)
    | .timedOut =>
        ({ success := false, output := "",
           error := "Command timed out after 30 seconds: " ++ command,
           command := command }, some command)
    | .failed msg =>
        ({ success := false, output := "",
           error := "Unexpected error executing command: " ++ msg,
           command := command }, some command)

/-! ## Normalisation lemmas -/

/-- Every output of `pyLower` is either the input itself or a lowercase
ASCII letter. -/
theorem pyLower_image (c : Char) :
    pyLower c = c ∨ pyLower c ∈
      (['a','b','c','d','e','f','g','h','i','j','k','l','m',
        'n','o','p','q','r','s','t','u','v','w','x','y','z'] : List Char) := by
  unfold pyLower
  split <;> first | (left; rfl) | (right; decide)

theorem pyLower_pyLower (c : Char) : pyLower (pyLower c) = pyLower c := by
  have hfix : ∀ d ∈ (['a','b','c','d','e','f','g','h','i','j','k','l','m',
      'n','o','p','q','r','s','t','u','v','w','x','y','z'] : List Char),
      pyLower d = d := by decide
  rcases pyLower_image c with h | h
  · rw [h]; exact h
  · exact hfix _ h

theorem isSpace_pyLower (c : Char) : isSpace (pyLower c) = isSpace c := by
  unfold pyLower
  split <;> rfl

theorem dropWhile_dropWhile_same (p : α → Bool) (l : List α) :
    (l.dropWhile p).dropWhile p = l.dropWhile p := by
  induction l with
  | nil => rfl
  | cons a t ih => by_cases h : p a <;> simp [List.dropWhile_cons, h, ih]

/-- `pyStrip` commutes with mapping a whitespace-preserving function. -/
theorem pyStrip_map_pyLower (l : List Char) :
    pyStrip (l.map pyLower) = (pyStrip l).map pyLower := by
  have hcomp : (isSpace ∘ pyLower) = isSpace := funext isSpace_pyLower
  have hdw : ∀ m : List Char,
      (m.map pyLower).dropWhile isSpace = (m.dropWhile isSpace).map pyLower := by
    intro m; rw [List.dropWhile_map, hcomp]
  unfold pyStrip
  rw [hdw, ← List.map_reverse, hdw, ← List.map_reverse]

/-- `pyStrip l` is a prefix of `l.dropWhile isSpace`. -/
theorem pyStrip_prefix_dropWhile (l : List Char) :
    pyStrip l <+: l.dropWhile isSpace := by
  have hsuf : (l.dropWhile isSpace).reverse.dropWhile isSpace
      <:+ (l.dropWhile isSpace).reverse := List.dropWhile_suffix isSpace
  have h2 := List.reverse_prefix.mpr hsuf
  simpa [pyStrip] using h2

/-- The head of `pyStrip l` is not whitespace, so stripping again on the
left does nothing. -/
theorem dropWhile_pyStrip (l : List Char) :
    (pyStrip l).dropWhile isSpace = pyStrip l := by
  rcases h : pyStrip l with _ | ⟨c, t⟩
  · rfl
  · have hpre : (c :: t : List Char) <+: l.dropWhile isSpace :=
      h ▸ pyStrip_prefix_dropWhile l
    have hne : (c :: t : List Char) ≠ [] := by simp
    have hhead := hpre.head hne
    have hnot : isSpace ((l.dropWhile isSpace).head (hpre.ne_nil hne)) = false :=
      List.head_dropWhile_not isSpace l _
    have hc : isSpace c = false := by
      simpa [← hhead] using hnot
    simp [List.dropWhile_cons, hc]

theorem pyStrip_idem (l : List Char) : pyStrip (pyStrip l) = pyStrip l := by
  have h1 : List.dropWhile isSpace (pyStrip l) = pyStrip l := dropWhile_pyStrip l
  have h2 : List.dropWhile isSpace (pyStrip l).reverse = (pyStrip l).reverse := by
    show List.dropWhile isSpace
        (((l.dropWhile isSpace).reverse.dropWhile isSpace).reverse).reverse = _
    rw [List.reverse_reverse, dropWhile_dropWhile_same]
    show _ = (((l.dropWhile isSpace).reverse.dropWhile isSpace).reverse).reverse
    rw [List.reverse_reverse]
  show (((pyStrip l).dropWhile isSpace).reverse.dropWhile isSpace).reverse = pyStrip l
  rw [h1, h2, List.reverse_reverse]

/-! ## Claims about the classifier -/

/-- Any command whose normalised text matches a Forbidden-tier pattern
classifies as `forbidden` (the Forbidden tier is checked first and
short-circuits). -/
theorem classify_forbidden_of_match (s : String)
    (h : matchesAnyRegex forbidden_patterns (commandLower s) = true) :
    is_command_safe s = .forbidden := by
  unfold is_command_safe classifyNorm
  simp [h]

/-- A command whose normalised text matches a Confirm-tier pattern but no
Forbidden-tier pattern classifies as `confirm`. -/
theorem classify_confirm_of_match (s : String)
    (hf : matchesAnyRegex forbidden_patterns (commandLower s) = false)
    (hc : matchesAnyRegex confirmable_patterns (commandLower s) = true) :
    is_command_safe s = .confirm := by
  unfold is_command_safe classifyNorm
  simp [hf, hc]

/-- C1.  The claim says `is_command_safe "rm -rf /tmp/testdir"` is the
Confirm verdict; in fact the Forbidden-tier pattern `rm\s+-rf\s+/` is
tested with `re.search`, so it matches `rm -rf /` followed by anything —
any absolute path — and the command classifies as `forbidden`. -/
theorem c1_counterexample :
    is_command_safe "rm -rf /tmp/testdir" ≠ .confirm ∧
    is_command_safe "rm -rf /tmp/testdir" = .forbidden := by decide

/-- C1 (amended): recursive removal of an absolute path such as
`rm -rf /tmp/testdir` classifies as `forbidden` (the Forbidden pattern
`rm\s+-rf\s+/` matches any absolute path); only a relative-path recursive
removal such as `rm -rf testdir` classifies as `confirm`. -/
theorem c1_rm_rf_paths :
    is_command_safe "rm -rf /tmp/testdir" = .forbidden ∧
    is_command_safe "rm -rf testdir" = .confirm := by decide

/-- C6.  Tier precedence: a command matching a Forbidden-tier pattern
classifies as `forbidden`, whatever the Confirm tier would say, because the
Forbidden loop runs first and returns immediately. -/
theorem c6_forbidden_precedence (s : String)
    (h : matchesAnyRegex forbidden_patterns (commandLower s) = true) :
    is_command_safe s = .forbidden := by
  unfold is_command_safe classifyNorm
  simp [h]

/-- C6 witness: `rm -rf / ; mv a b` matches both a Forbidden pattern
(`rm\s+-rf\s+/`) and a Confirm pattern (`mv\s+.+`) and classifies as
`forbidden`. -/
theorem c6_witness :
    matchesAnyRegex forbidden_patterns (commandLower "rm -rf / ; mv a b") = true ∧
    matchesAnyRegex confirmable_patterns (commandLower "rm -rf / ; mv a b") = true ∧
    is_command_safe "rm -rf / ; mv a b" = .forbidden :=
  ⟨by decide, by decide, c6_forbidden_precedence "rm -rf / ; mv a b" (by decide)⟩

/-- C7.  The claim says every mkfs-family command is Forbidden; in fact the
Forbidden tier only covers formatting via the `format(\s|$)` and `fdisk`
patterns, and `mkfs.ext4 /dev/sda1` matches no pattern at all, classifying
as `safe`. -/
theorem c7_counterexample :
    is_command_safe "mkfs.ext4 /dev/sda1" ≠ .forbidden ∧
    is_command_safe "mkfs.ext4 /dev/sda1" = .safe := by decide

/-- C7 (amended): the Forbidden tier's disk-formatting coverage is limited
to the `format(\s|$)` and `fdisk` patterns; an mkfs-family command such as
`mkfs.ext4 /dev/sda1` matches neither tier and classifies as `safe`. -/
theorem c7_formatting_coverage :
    is_command_safe "mkfs.ext4 /dev/sda1" = .safe ∧
    is_command_safe "fdisk /dev/sda1" = .forbidden ∧
    is_command_safe "format c:" = .forbidden := by decide

/-- C9.  Matching is `re.search` over the whole normalised string: a
dangerous sub-pattern anywhere in the text yields its tier's verdict
(Forbidden-tier match ⇒ `forbidden`; Confirm-tier match with no
Forbidden-tier match ⇒ `confirm`; either kind of match ⇒ not `safe`). -/
theorem c9_whole_string_matching (s : String) :
    (matchesAnyRegex forbidden_patterns (commandLower s) = true →
      is_command_safe s = .forbidden) ∧
    (matchesAnyRegex confirmable_patterns (commandLower s) = true →
      matchesAnyRegex forbidden_patterns (commandLower s) = false →
      is_command_safe s = .confirm) ∧
    ((matchesAnyRegex forbidden_patterns (commandLower s) ||
      matchesAnyRegex confirmable_patterns (commandLower s)) = true →
      is_command_safe s ≠ .safe) := by
  unfold is_command_safe classifyNorm
  by_cases hf : matchesAnyRegex forbidden_patterns (commandLower s) = true <;>
    by_cases hc : matchesAnyRegex confirmable_patterns (commandLower s) = true <;>
      simp [hf, hc]

/-- C9 witness: the safe command `ls` piped into `shutdown now` is caught by
the Forbidden tier; piped into `mv a b` it is caught by the Confirm tier. -/
theorem c9_witness :
    is_command_safe "ls | shutdown now" = .forbidden ∧
    is_command_safe "ls | mv a b" = .confirm :=
  ⟨(c9_whole_string_matching "ls | shutdown now").1 (by decide),
   (c9_whole_string_matching "ls | mv a b").2.1 (by decide) (by decide)⟩

/-- C10.  A bare destructive command name (`rm`, `del`, `rmdir` or `mv`
exactly, after trimming) matches no pattern — every Confirm-tier pattern
requires whitespace and at least one argument character after the name —
and classifies as `safe`. -/
theorem c10_bare_names_safe (s : String)
    (h : pyStrip s.data = "rm".data ∨ pyStrip s.data = "del".data ∨
         pyStrip s.data = "rmdir".data ∨ pyStrip s.data = "mv".data) :
    is_command_safe s = .safe := by
  unfold is_command_safe commandLower
  rw [pyStrip_map_pyLower]
  rcases h with h | h | h | h <;> rw [h] <;> decide

/-- C10 witness: `"  rm  "` trims to `rm` and classifies as `safe`. -/
theorem c10_witness :
    pyStrip "  rm  ".data = "rm".data ∧ is_command_safe "  rm  " = .safe :=
  ⟨by decide, c10_bare_names_safe "  rm  " (by decide)⟩

/-! ## Claims about the executor -/

/-- C2.  The claim's invariant says `success = true` implies `error = ""`;
in fact `error` is the trimmed stderr, so a command exiting 0 while writing
a warning to stderr yields `success = true` with a non-empty `error`. -/
theorem c2_counterexample :
    (execute_command "echo hi" ""
      (fun _ => .completed ⟨0, "hi", "warning: low disk space"⟩)).fst.success = true ∧
    (execute_command "echo hi" ""
      (fun _ => .completed ⟨0, "hi", "warning: low disk space"⟩)).fst.error ≠ "" := by
  decide

/-- C2 (amended): `success = true` does imply `exit_code = 0` — the
`error = ""` half of the claimed invariant does not hold, since `error` is
the trimmed stderr and may be non-empty on a zero exit code. -/
theorem c2_success_implies_exit_zero (command confirmResponse : String)
    (run : String → ProcOutcome)
    (h : (execute_command command confirmResponse run).fst.success = true) :
    (execute_command command confirmResponse run).fst.return_code = some 0 := by
  unfold execute_command at h ⊢
  by_cases hf : is_command_safe command = .forbidden
  · simp [hf] at h
  · by_cases hc : is_command_safe command = .confirm ∧
        pyUpperStr (pyStripStr confirmResponse) ≠ "YES"
    · simp [hf, hc] at h
    · rcases hr : run command with r | _ | msg <;>
        simp [hf, hc, hr] at h ⊢ <;> simp [h]

/-- C2 witness: a command completing with exit code 0 yields
`success = true` and `return_code = some 0`. -/
theorem c2_witness :
    (execute_command "echo hi" ""
      (fun _ => .completed ⟨0, "hi", ""⟩)).fst.success = true ∧
    (execute_command "echo hi" ""
      (fun _ => .completed ⟨0, "hi", ""⟩)).fst.return_code = some 0 :=
  ⟨by decide, c2_success_implies_exit_zero "echo hi" "" _ (by decide)⟩

theorem pyStripStr_empty : pyStripStr "" = "" := rfl

/-- The executor's run branch: not Forbidden, not cancelled, and
`subprocess.run` completed normally. -/
theorem execute_command_completed (command confirmResponse : String)
    (run : String → ProcOutcome) (r : ProcResult)
    (hf : ¬ is_command_safe command = .forbidden)
    (hc : ¬(is_command_safe command = .confirm ∧
        pyUpperStr (pyStripStr confirmResponse) ≠ "YES"))
    (hrun : run command = .completed r) :
    execute_command command confirmResponse run =
      ({ success := r.returncode == 0,
         output := if r.stdout = "" then "" else pyStripStr r.stdout,
         error := if r.stderr = "" then "" else pyStripStr r.stderr,
         command := command, return_code := some r.returncode }, some command) := by
  unfold execute_command
  rw [if_neg hf, if_neg hc, hrun]

/-- C3.  When the executor actually runs a command to completion,
`success` equals `(exit_code == 0)` — regardless of stderr — and `error`
is the captured, trimmed stderr. -/
theorem c3_success_from_exit_code (command confirmResponse : String)
    (run : String → ProcOutcome) (r : ProcResult)
    (hrun : run command = .completed r)
    (hspawn : (execute_command command confirmResponse run).snd = some command) :
    (execute_command command confirmResponse run).fst.success = (r.returncode == 0) ∧
    (execute_command command confirmResponse run).fst.error = pyStripStr r.stderr := by
  by_cases hf : is_command_safe command = .forbidden
  · exfalso
    unfold execute_command at hspawn
    rw [if_pos hf] at hspawn
    simp at hspawn
  by_cases hc : is_command_safe command = .confirm ∧
      pyUpperStr (pyStripStr confirmResponse) ≠ "YES"
  · exfalso
    unfold execute_command at hspawn
    rw [if_neg hf, if_pos hc] at hspawn
    simp at hspawn
  rw [execute_command_completed command confirmResponse run r hf hc hrun]
  refine ⟨rfl, ?_⟩
  by_cases hs : r.stderr = ""
  · simp [hs, pyStripStr_empty]
  · simp [hs]

/-- C3 witness: exit code 0 with a non-empty stderr still yields
`success = true`, with `error` the trimmed stderr. -/
theorem c3_witness :
    (execute_command "echo hi" ""
      (fun _ => .completed ⟨0, "hi", " warn \n"⟩)).fst.success = ((0 : Int) == 0) ∧
    (execute_command "echo hi" ""
      (fun _ => .completed ⟨0, "hi", " warn \n"⟩)).fst.error = pyStripStr " warn \n" :=
  c3_success_from_exit_code "echo hi" "" _ ⟨0, "hi", " warn \n"⟩ rfl (by decide)

/-- C4.  A Forbidden-classified command yields exactly the blocked result —
`success = false`, empty output, a security-block message echoing the
command — and no process is spawned (`none` in the spawn slot). -/
theorem c4_forbidden_blocked (command confirmResponse : String)
    (run : String → ProcOutcome)
    (h : is_command_safe command = .forbidden) :
    execute_command command confirmResponse run =
      ({ success := false, output := "",
         error := "Command blocked for security reasons: " ++ command,
         command := command, return_code := none }, none) := by
  unfold execute_command
  simp [h]

/-- C4 witness: `rm -rf /` is Forbidden and blocked without spawning,
even with an affirmative confirmation response standing by. -/
theorem c4_witness :
    is_command_safe "rm -rf /" = .forbidden ∧
    execute_command "rm -rf /" "YES" (fun _ => .completed ⟨0, "", ""⟩) =
      ({ success := false, output := "",
         error := "Command blocked for security reasons: " ++ "rm -rf /",
         command := "rm -rf /", return_code := none }, none) :=
  ⟨by decide, c4_forbidden_blocked "rm -rf /" "YES" _ (by decide)⟩

/-- C5.  The claim compares the raw confirmation response to "YES"
case-insensitively; the code first strips the response (`input(...).strip()`),
so the response `" yes "` — which is not a case-insensitive exact match of
"YES" — still launches the process. -/
theorem c5_counterexample :
    pyUpperStr " yes " ≠ "YES" ∧
    (execute_command "mv a b" " yes "
      (fun _ => .completed ⟨0, "", ""⟩)).snd = some "mv a b" := by
  decide

/-- C5 (amended): for a Confirm-classified command, the process is spawned
iff the whitespace-trimmed confirmation response equals "YES" under the
case-insensitive exact-match comparison; otherwise the executor returns the
cancellation result naming the command, and spawns nothing. -/
theorem c5_confirm_spawn_iff (command confirmResponse : String)
    (run : String → ProcOutcome)
    (h : is_command_safe command = .confirm) :
    ((execute_command command confirmResponse run).snd = some command ↔
      pyUpperStr (pyStripStr confirmResponse) = "YES") ∧
    (pyUpperStr (pyStripStr confirmResponse) ≠ "YES" →
      execute_command command confirmResponse run =
        ({ success := false, output := "",
           error := "Execution cancelled by user: " ++ command,
           command := command, return_code := none }, none)) := by
  unfold execute_command
  by_cases hy : pyUpperStr (pyStripStr confirmResponse) = "YES"
  · rcases hr : run command with r | _ | msg <;> simp [h, hy, hr]
  · simp [h, hy]

/-- C5 witness: `mv a b` is Confirm-classified; with response `"no"` the
spawn-iff equivalence and the cancellation result hold. -/
theorem c5_witness :
    ((execute_command "mv a b" "no"
        (fun _ => .completed ⟨0, "", ""⟩)).snd = some "mv a b" ↔
      pyUpperStr (pyStripStr "no") = "YES") ∧
    (pyUpperStr (pyStripStr "no") ≠ "YES" →
      execute_command "mv a b" "no" (fun _ => .completed ⟨0, "", ""⟩) =
        ({ success := false, output := "",
           error := "Execution cancelled by user: " ++ "mv a b",
           command := "mv a b", return_code := none }, none)) :=
  c5_confirm_spawn_iff "mv a b" "no" _ (by decide)

/-! ## Case-insensitivity of classification (C8) -/

/-- The claim's normalisation: `lowercase(trim(s))`. -/
def lowerTrim (s : String) : String := ⟨(pyStrip s.data).map pyLower⟩

/-- Normalising an already lower-trimmed command is a no-op: lowering is
idempotent, commutes with stripping, and stripping is idempotent. -/
theorem commandLower_lowerTrim (s : String) :
    commandLower (lowerTrim s) = commandLower s := by
  unfold commandLower lowerTrim
  show pyStrip (((pyStrip s.data).map pyLower).map pyLower) = _
  rw [List.map_map]
  have hid : pyLower ∘ pyLower = pyLower := funext pyLower_pyLower
  rw [hid, ← pyStrip_map_pyLower, pyStrip_idem]

/-- C8.  Classification is case- and margin-insensitive —
`classify(lowercase(trim(s))) = classify(s)` for every `s` (in particular
`classify("RM -RF /") = classify("rm -rf /")`) — while the string handed to
the shell is always the original, unaltered command (the spawn slot is
either `none` or the untouched `s`). -/
theorem c8_classify_case_insensitive (s confirmResponse : String)
    (run : String → ProcOutcome) :
    is_command_safe (lowerTrim s) = is_command_safe s ∧
    ((execute_command s confirmResponse run).snd = none ∨
      (execute_command s confirmResponse run).snd = some s) := by
  constructor
  · unfold is_command_safe
    rw [commandLower_lowerTrim]
  · unfold execute_command
    by_cases hf : is_command_safe s = .forbidden
    · rw [if_pos hf]; left; rfl
    rw [if_neg hf]
    by_cases hc : is_command_safe s = .confirm ∧
        pyUpperStr (pyStripStr confirmResponse) ≠ "YES"
    · rw [if_pos hc]; left; rfl
    rw [if_neg hc]
    rcases hr : run s with r | _ | msg <;> (right; rfl)
